import Mathlib

/-!
# Verification of the EtaPanel core interactive remote-command subsystem

Shallow embedding of the WebSocket transport layer (package `ws`:
connection, manager, pumps) and the PTY process-session layer
(`pkg/extend/pty/handlers.go`), with theorems settling the specification
claims about argument tokenizing, send/close semantics, process
lifecycle, broadcast backpressure, and frame handling.

All definitions are translated from the Go source; machine behavior that
the claims quantify over (pipe-creation failures, process exit status,
goroutine schedules, clock readings) is passed in explicitly as
parameters, so every definition is executable.
-/

namespace EtaCore

/-! ## Argument tokenizer (`parseArgs`, pty/handlers.go lines 484–524) -/

/-- Go unicode.IsSpace restricted to the Latin-1 range, which is what
`strings.TrimSpace` tests on the inputs relevant here: space, tab,
newline, vertical tab, form feed, carriage return, NEL, NBSP. -/
def isGoSpace (c : Char) : Bool :=
  c = ' ' || c = '\t' || c = '\n' || c = '\x0b' || c = '\x0c' || c = '\r' ||
    c = '\x85' || c = '\xa0'

/-- Model of `strings.TrimSpace`: drop leading and trailing whitespace
characters. -/
def trimSpace (cs : List Char) : List Char :=
  ((cs.dropWhile isGoSpace).reverse.dropWhile isGoSpace).reverse

/-- The rune loop of `parseArgs` (pty/handlers.go lines 495–517) plus the
final flush (lines 519–521).  State: remaining runes, `inQuotes`,
`escapeNext`, the `current` builder, the `result` accumulator. -/
def parseArgsLoop : List Char → Bool → Bool → List Char → List String → List String
  | [], _, _, current, result =>
    if current.length > 0 then result ++ [String.mk current] else result
  | c :: rest, inQuotes, escapeNext, current, result =>
    if escapeNext then
      parseArgsLoop rest inQuotes false (current ++ [c]) result
    else if c = '\\' then
      parseArgsLoop rest inQuotes true current result
    else if c = '"' then
      parseArgsLoop rest (!inQuotes) escapeNext current result
    else if c = ' ' then
      if inQuotes then
        parseArgsLoop rest inQuotes escapeNext (current ++ [c]) result
      else if current.length > 0 then
        parseArgsLoop rest inQuotes escapeNext [] (result ++ [String.mk current])
      else
        parseArgsLoop rest inQuotes escapeNext current result
    else
      parseArgsLoop rest inQuotes escapeNext (current ++ [c]) result

/-- Model of `parseArgs` (pty/handlers.go lines 484–524): trim the
argument string, return no arguments if it is empty, otherwise run the
tokenizing loop.  The Go function returns `nil` in the empty case; both
`nil` and the empty slice are modelled as `[]`. -/
def parseArgs (args : String) : List String :=
  let t := trimSpace args.toList
  if t = [] then [] else parseArgsLoop t false false [] []

/-- Tokenizer written from the specification's words, parameterized by
the class of separator characters: tokens are split on unescaped
separators outside double quotes, a double quote toggles grouping, a
backslash escapes the next character, and leading/trailing whitespace is
trimmed.  With `isSep := isGoSpace` this is the spec's "tokenized on
unescaped whitespace"; with `isSep c := (c = blank)` it is the amended
split-on-spaces-only reading. -/
def tokenizeLoop (isSep : Char → Bool) :
    List Char → Bool → Bool → List Char → List String → List String
  | [], _, _, current, result =>
    if current.length > 0 then result ++ [String.mk current] else result
  | c :: rest, inQuotes, escapeNext, current, result =>
    if escapeNext then
      tokenizeLoop isSep rest inQuotes false (current ++ [c]) result
    else if c = '\\' then
      tokenizeLoop isSep rest inQuotes true current result
    else if c = '"' then
      tokenizeLoop isSep rest (!inQuotes) escapeNext current result
    else if isSep c then
      if inQuotes then
        tokenizeLoop isSep rest inQuotes escapeNext (current ++ [c]) result
      else if current.length > 0 then
        tokenizeLoop isSep rest inQuotes escapeNext [] (result ++ [String.mk current])
      else
        tokenizeLoop isSep rest inQuotes escapeNext current result
    else
      tokenizeLoop isSep rest inQuotes escapeNext (current ++ [c]) result

/-- Spec-side tokenizer: split on unescaped separator characters from the
class `isSep`, after trimming whitespace; empty/blank input yields zero
tokens. -/
def tokenizeOn (isSep : Char → Bool) (args : String) : List String :=
  let t := trimSpace args.toList
  if t = [] then [] else tokenizeLoop isSep t false false [] []

/-! ## Wire messages (ws.Message, pty.OutputMessage) -/

/-- Model of pty.OutputMessage: JSON fields type/data/code/pid/status.
Fields left unset in Go take their zero values, modelled as the
defaults here. -/
structure OutputMessage where
  type : String
  data : String
  code : Int := 0
  pid : Int := 0
  status : String := ""
deriving Repr, DecidableEq

/-- Model of pty.CommandRequest: JSON fields command/args/dir. -/
structure CommandRequest where
  command : String
  args : String
  dir : String
deriving Repr, DecidableEq

/-- The payloads that travel in ws.Message's `Data interface\x7b\x7d`
field in this subsystem.  `otherData` stands for any other JSON payload
(one that fails to decode as the type a handler expects). -/
inductive MsgData
  | output (m : OutputMessage)
  | command (req : CommandRequest)
  | str (s : String)
  | pongData (timestamp : Int)
  | otherData
deriving Repr, DecidableEq

/-- Model of ws.Message: a tagged `type` plus a payload.  json.Marshal
always succeeds on these payloads, so serialization is modelled as the
identity and the outbound queue holds messages directly. -/
structure Message where
  type : String
  data : MsgData
deriving Repr, DecidableEq

/-! ## Transport connection (ws.Connection) -/

/-- Capacity of the buffered `Send` channel: `make(chan []byte, 256)` in
`Manager.CreateConnection`. -/
def sendQueueCapacity : Nat := 256

/-- Model of ws.Connection: identifier, the bounded outbound `Send`
queue (FIFO, front = next to be written), the `closed` flag, and whether
the underlying websocket transport has been closed
(`c.Conn.Close()`). -/
structure WsConnection where
  id : String
  send : List Message
  closed : Bool
  transportClosed : Bool
deriving Repr, DecidableEq

/-- Send-time failures of `Connection.SendMessage`: the
"connection is closed" and "send buffer is full" errors. -/
inductive SendError
  | connectionClosed
  | queueFull
deriving Repr, DecidableEq

/-- Model of `Connection.SendMessage` (ws, lines 202–221): marshal (always
succeeds for these payloads), then under the mutex fail if the closed
flag is set; otherwise a `select` on the buffered channel enqueues when
the queue has room and hits `default` (queue full) otherwise.  Returns
the updated connection and the error, mirroring Go's mutated receiver
plus error return. -/
def WsConnection.sendMessage (c : WsConnection) (msg : Message) :
    WsConnection × Option SendError :=
  if c.closed then (c, some SendError.connectionClosed)
  else if c.send.length < sendQueueCapacity then
    ({ c with send := c.send ++ [msg] }, none)
  else (c, some SendError.queueFull)

/-- Model of `Connection.close` (ws, lines 229–238): under the mutex, if
the closed flag is not yet set, set it, close the underlying transport,
and push the connection onto the manager's `unregister` channel.  The
returned Bool records whether the registry was notified (the push
happened). -/
def WsConnection.close (c : WsConnection) : WsConnection × Bool :=
  if c.closed then (c, false)
  else ({ c with closed := true, transportClosed := true }, true)

/-- Repeated invocations of `Connection.close` (from either pump or the
handler); counts how many times the registry was notified in total. -/
def closeIter : Nat → WsConnection → WsConnection × Nat
  | 0, c => (c, 0)
  | n + 1, c =>
    let r := c.close
    let r2 := closeIter n r.1
    (r2.1, (if r.2 then 1 else 0) + r2.2)

/-! ## Connection registry (ws.Manager) -/

/-- The registry state that `Manager.handleUnregister` touches: the set
of registered connection ids, plus logs of the effects "close the
connection's `Send` channel" and "invoke the handler's `HandleClose`
callback" (one log entry per execution). -/
structure ManagerState where
  connIds : List String
  sendClosed : List String
  closeCallbacks : List String
deriving Repr, DecidableEq

/-- Model of `Manager.handleUnregister` (ws, lines 147–160): under the
lock, if the connection is still in the map, remove it, close its `Send`
channel, and invoke the handler's close callback; otherwise do
nothing. -/
def ManagerState.handleUnregister (m : ManagerState) (id : String) : ManagerState :=
  if id ∈ m.connIds then
    { connIds := m.connIds.erase id
      sendClosed := m.sendClosed ++ [id]
      closeCallbacks := m.closeCallbacks ++ [id] }
  else m

/-- The manager's single mutating task consuming `k` unregister requests
for the same connection. -/
def unregisterIter : Nat → ManagerState → String → ManagerState
  | 0, m, _ => m
  | n + 1, m, id => unregisterIter n (m.handleUnregister id) id

/-- One iteration of the loop in `Manager.BroadcastToPath` (ws, lines
187–196): `select` on the buffered `Send` channel delivers when the
queue has room; the `default` branch (queue full) skips the connection
and closes it via `go conn.close()` (modelled as the close having run). -/
def broadcastStep (data : Message) (c : WsConnection) : WsConnection :=
  if c.send.length < sendQueueCapacity then { c with send := c.send ++ [data] }
  else (c.close).1

/-- Model of `Manager.BroadcastToPath` (ws, lines 178–199): marshal the
message (always succeeds here) and apply the broadcast step to every
registered connection.  The path filter is a TODO in the source and
ignored. -/
def broadcastToPath (conns : List WsConnection) (msg : Message) : List WsConnection :=
  conns.map (broadcastStep msg)

/-! ## Process session (pty.PTY) -/

/-- The parts of the spawned `exec.Cmd` the claims observe: the program,
parsed arguments, working directory, whether `cmd.Start()` succeeded
(Go: `Cmd.Process != nil`), and the process id. -/
structure PtyCmd where
  program : String
  args : List String
  dir : String
  processStarted : Bool
  pid : Int
deriving Repr, DecidableEq

/-- Model of pty.PTY: session id, the spawned command (if any), the three
standard pipes (`none` = nil, `some true` = open, `some false` =
closed), the running flag, and a log of bytes written to the process
standard input. -/
structure PTY where
  id : String
  cmd : Option PtyCmd
  stdin : Option Bool
  stdout : Option Bool
  stderr : Option Bool
  running : Bool
  stdinWritten : List String
deriving Repr, DecidableEq

/-- The distinct failures of `PTY.Start` (pty/handlers.go lines 299–340):
the already-running guard, the three pipe-creation failures, and the
`cmd.Start()` launch failure.  All but the first are spawn errors in the
spec's taxonomy. -/
inductive StartError
  | alreadyRunning
  | stdinPipeFailed
  | stdoutPipeFailed
  | stderrPipeFailed
  | startFailed
deriving Repr, DecidableEq

/-- Which `PTY.Start` failures the spec's `SpawnError` covers: every
failure except the already-running guard. -/
def StartError.isSpawnError : StartError → Bool
  | .alreadyRunning => false
  | _ => true

/-- The Go error strings of `PTY.Start` (the `%v` os-level detail is
abstracted away). -/
def StartError.message : StartError → String
  | .alreadyRunning => "PTY is already running"
  | .stdinPipeFailed => "failed to create stdin pipe"
  | .stdoutPipeFailed => "failed to create stdout pipe"
  | .stderrPipeFailed => "failed to create stderr pipe"
  | .startFailed => "failed to start command"

/-- The machine-dependent outcomes `PTY.Start` consults: whether each
pipe can be created, whether the executable can be launched
(`cmd.Start()`), and the process id the OS assigns. -/
structure SpawnEnv where
  stdinPipeOk : Bool
  stdoutPipeOk : Bool
  stderrPipeOk : Bool
  execOk : Bool
  pid : Int
deriving Repr, DecidableEq

/-- Model of `PTY.Start` (pty/handlers.go lines 299–340): under the
mutex, fail if already running; create the command; create the three
pipes in order, failing on the first one that cannot be created (Go's
multi-assignment leaves the pipe field nil on failure); launch the
executable, failing if it cannot be started; on success set the running
flag.  Partial mutations before a failure stay, as in Go. -/
def PTY.start (p : PTY) (env : SpawnEnv) (command : String) (args : List String)
    (dir : String) : PTY × Option StartError :=
  if p.running then (p, some StartError.alreadyRunning)
  else
    let p1 := { p with cmd := some { program := command, args := args, dir := dir,
                                     processStarted := false, pid := env.pid } }
    if env.stdinPipeOk = false then ({ p1 with stdin := none }, some StartError.stdinPipeFailed)
    else
      let p2 := { p1 with stdin := some true }
      if env.stdoutPipeOk = false then ({ p2 with stdout := none }, some StartError.stdoutPipeFailed)
      else
        let p3 := { p2 with stdout := some true }
        if env.stderrPipeOk = false then ({ p3 with stderr := none }, some StartError.stderrPipeFailed)
        else
          let p4 := { p3 with stderr := some true }
          if env.execOk = false then (p4, some StartError.startFailed)
          else
            ({ p4 with cmd := some { program := command, args := args, dir := dir,
                                     processStarted := true, pid := env.pid },
                       running := true }, none)

/-- Closing a pipe handle: a nil handle stays nil, an existing one
becomes closed. -/
def closePipe : Option Bool → Option Bool
  | none => none
  | some _ => some false

/-- Model of `PTY.Stop` (pty/handlers.go lines 343–388): under the mutex,
return nil immediately if not running or no command exists; otherwise
signal the process (SIGTERM, bounded wait, then kill — the real-time
escalation is abstracted, the process is terminated when this returns),
close the three pipes, clear the running flag, and return nil.  Both
paths return a nil error. -/
def PTY.stop (p : PTY) : PTY × Option String :=
  if p.running = false ∨ p.cmd = none then (p, none)
  else
    ({ p with
        stdin := closePipe p.stdin
        stdout := closePipe p.stdout
        stderr := closePipe p.stderr
        running := false }, none)

/-- The outcome of `cmd.Wait()` as the exit-wait task inspects it: nil
(clean exit), an `exec.ExitError` wrapping an exit code, or any other
error. -/
inductive WaitErr
  | exitError (code : Int)
  | otherError
deriving Repr, DecidableEq

/-- The exit-code computation of the wait task (pty/handlers.go lines
446–452): 0 unless the error is an `exec.ExitError`, in which case the
wrapped code. -/
def exitCodeOf : Option WaitErr → Int
  | some (WaitErr.exitError c) => c
  | _ => 0

/-- `PTY.sendMessage` wraps an OutputMessage as an output-typed
ws.Message (pty/handlers.go lines 470–481). -/
def outputWsMessage (m : OutputMessage) : Message :=
  { type := "output", data := MsgData.output m }

/-- `PTYHandler.sendError` wraps the text in an error-typed ws.Message
carrying an error OutputMessage (pty/handlers.go lines 249–259). -/
def errorWsMessage (text : String) : Message :=
  { type := "error"
    data := MsgData.output { type := "error", data := text, status := "error" } }

/-- Model of the exit-wait task spawned by `PTY.ReadOutput`
(pty/handlers.go lines 444–466): if a command exists, block until the
process exits (the outcome `w` of `cmd.Wait()` is passed in), compute
the exit code, emit one terminal exit-typed output message carrying that
code (and the pid when the process handle exists), and clear the running
flag.  The returned list holds the messages the task hands to
`sendMessage`; send errors are ignored by the task. -/
def PTY.exitWait (p : PTY) (w : Option WaitErr) : PTY × List Message :=
  match p.cmd with
  | none => (p, [])
  | some cmd =>
    let code := exitCodeOf w
    let msg : OutputMessage :=
      { type := "exit"
        data := "Process exited with code " ++ toString code
        code := code
        pid := if cmd.processStarted then cmd.pid else 0
        status := "finished" }
    ({ p with running := false }, [outputWsMessage msg])

/-- Model of `PTY.WriteInput` (pty/handlers.go lines 391–401): under the
mutex, fail if not running or the stdin pipe is nil; otherwise write the
bytes to the process standard input (a closed pipe makes the write
fail). -/
def PTY.writeInput (p : PTY) (input : String) : PTY × Option String :=
  if p.running = false ∨ p.stdin = none then (p, some ("PTY is not running"))
  else if p.stdin = some true then
    ({ p with stdinWritten := p.stdinWritten ++ [input] }, none)
  else (p, some ("write on closed pipe"))

/-! ## PTY message handler (pty.PTYHandler) -/

/-- One PTY session together with its connection.  The source keeps a
connection pointer inside the PTY (`p.conn`); it is always non-nil for
sessions created by `HandleConnection`, so it is modelled as a plain
field here. -/
structure Session where
  pty : PTY
  conn : WsConnection
deriving Repr, DecidableEq

/-- `PTYHandler.sendError`: send an error-typed message on the
connection (pty/handlers.go lines 249–259). -/
def sendError (conn : WsConnection) (text : String) : WsConnection × Option SendError :=
  conn.sendMessage (errorWsMessage text)

/-- The pid the handler reports: set only when the command and its
process handle exist (pty/handlers.go lines 206–208). -/
def pidOf (p : PTY) : Int :=
  match p.cmd with
  | some cmd => if cmd.processStarted then cmd.pid else 0
  | none => 0

/-- `PTY.sendMessage`: wrap as an output-typed message and send on the
session's connection (pty/handlers.go lines 470–481). -/
def PTY.sendOutput (conn : WsConnection) (msg : OutputMessage) :
    WsConnection × Option SendError :=
  conn.sendMessage (outputWsMessage msg)

/-- Outcome of re-decoding a `command` message's payload into a
CommandRequest (pty/handlers.go lines 170–178). -/
inductive CommandData
  | valid (req : CommandRequest)
  | invalid
deriving Repr, DecidableEq

/-- handleCommand re-marshals the payload and unmarshals it into a
CommandRequest: a payload that is a command object decodes to it; any
other payload is modelled as failing to decode. -/
def MsgData.asCommandData : MsgData → CommandData
  | MsgData.command req => CommandData.valid req
  | _ => CommandData.invalid

/-- Model of `PTYHandler.handleCommand` (pty/handlers.go lines 169–211):
decode the request (on failure send an error message); stop the
currently running command first, then sleep 100 ms (the sleep has no
synchronization effect and no state effect here); tokenize the argument
string when non-empty; start the new command, sending an error message
naming the failure if it cannot be started; on success spawn
`go pty.ReadOutput()` (its tasks are modelled separately) and send a
"Command started" info output message carrying the pid. -/
def handleCommand (s : Session) (env : SpawnEnv) (data : CommandData) :
    Session × Option SendError :=
  match data with
  | CommandData.invalid =>
    let r := sendError s.conn ("Invalid command request format")
    ({ s with conn := r.1 }, r.2)
  | CommandData.valid req =>
    let p0 := if s.pty.running then (s.pty.stop).1 else s.pty
    let args := if req.args ≠ "" then parseArgs req.args else []
    let r := p0.start env req.command args req.dir
    match r.2 with
    | some e =>
      let r2 := sendError s.conn ("Failed to start command: " ++ e.message)
      ({ pty := r.1, conn := r2.1 }, r2.2)
    | none =>
      let startMsg : OutputMessage :=
        { type := "info"
          data := "Command started: " ++ req.command ++ " " ++ req.args
          pid := pidOf r.1
          status := "running" }
      let r2 := PTY.sendOutput s.conn startMsg
      ({ pty := r.1, conn := r2.1 }, r2.2)

/-- Model of `PTYHandler.handleInput` (pty/handlers.go lines 214–224):
the payload must be a string (else an error message is sent); write it
to the process standard input, sending an error message naming the
failure when the write fails. -/
def handleInput (s : Session) (data : MsgData) : Session × Option SendError :=
  match data with
  | MsgData.str input =>
    let r := s.pty.writeInput input
    match r.2 with
    | some errText =>
      let r2 := sendError s.conn ("Failed to write input: " ++ errText)
      ({ pty := r.1, conn := r2.1 }, r2.2)
    | none => ({ s with pty := r.1 }, none)
  | _ =>
    let r := sendError s.conn ("Invalid input data format")
    ({ s with conn := r.1 }, r.2)

/-- Model of `PTYHandler.handleResize` (pty/handlers.go lines 227–235):
acknowledge with an info output message; the payload is ignored. -/
def handleResize (s : Session) : Session × Option SendError :=
  let r := PTY.sendOutput s.conn
    { type := "info", data := "Terminal resize acknowledged", status := "running" }
  ({ s with conn := r.1 }, r.2)

/-- Model of `PTYHandler.handlePing` (pty/handlers.go lines 238–246):
reply with a pong message carrying the current Unix timestamp (passed in
as `now`). -/
def handlePing (conn : WsConnection) (now : Int) : WsConnection × Option SendError :=
  conn.sendMessage { type := "pong", data := MsgData.pongData now }

/-- gorilla/websocket's TextMessage frame-type constant. -/
def textMessage : Int := 1

/-- gorilla/websocket's BinaryMessage frame-type constant. -/
def binaryMessage : Int := 2

/-- The handler-side state `PTYHandler.HandleMessage` reads: the PTY the
manager has for this connection's id (if any) and the connection
itself. -/
structure HandlerState where
  pty : Option PTY
  conn : WsConnection
deriving Repr, DecidableEq

/-- An inbound frame's payload: either bytes that unmarshal into a
ws.Message, or malformed JSON. -/
inductive FrameData
  | valid (msg : Message)
  | malformed
deriving Repr, DecidableEq

/-- Model of `PTYHandler.HandleMessage` (pty/handlers.go lines 130–157):
non-text frames are ignored with a nil return; malformed JSON draws an
"Invalid message format" error message; a missing PTY session draws an
error message; otherwise dispatch on the message type to
command/input/resize/ping, with unknown types drawing an error
message. -/
def handleMessage (st : HandlerState) (env : SpawnEnv) (now : Int)
    (messageType : Int) (frame : FrameData) : HandlerState × Option SendError :=
  if messageType ≠ textMessage then (st, none)
  else
    match frame with
    | FrameData.malformed =>
      let r := sendError st.conn ("Invalid message format")
      ({ st with conn := r.1 }, r.2)
    | FrameData.valid msg =>
      match st.pty with
      | none =>
        let r := sendError st.conn ("PTY session not found")
        ({ st with conn := r.1 }, r.2)
      | some p =>
        if msg.type = "command" then
          let r := handleCommand { pty := p, conn := st.conn } env msg.data.asCommandData
          ({ pty := some r.1.pty, conn := r.1.conn }, r.2)
        else if msg.type = "input" then
          let r := handleInput { pty := p, conn := st.conn } msg.data
          ({ pty := some r.1.pty, conn := r.1.conn }, r.2)
        else if msg.type = "resize" then
          let r := handleResize { pty := p, conn := st.conn }
          ({ pty := some r.1.pty, conn := r.1.conn }, r.2)
        else if msg.type = "ping" then
          let r := handlePing st.conn now
          ({ st with conn := r.1 }, r.2)
        else
          let r := sendError st.conn ("Unknown message type: " ++ msg.type)
          ({ st with conn := r.1 }, r.2)

/-- One transport event observed by the read pump: a successfully read
frame, or a fatal transport read error. -/
inductive FrameEvent
  | frame (messageType : Int) (data : FrameData)
  | readError
deriving Repr, DecidableEq

/-- Model of `Connection.readPump`'s loop (ws, lines 241–265) over a
finite schedule of transport events: each successfully read frame is
dispatched synchronously to `HandleMessage` (a handler error is only
logged, the loop continues); a fatal transport read error breaks the
loop and the deferred `c.close()` runs.  An exhausted event list models
a pump still blocked on the next frame. -/
def readPumpRun (env : SpawnEnv) (now : Int) :
    HandlerState → List FrameEvent → HandlerState
  | st, [] => st
  | st, FrameEvent.readError :: _ => { st with conn := (st.conn.close).1 }
  | st, FrameEvent.frame mt d :: rest =>
    readPumpRun env now (handleMessage st env now mt d).1 rest

/-! ## Interleaving model for stop-then-start message ordering

`handleCommand` on a session with a running process executes `Stop`
(which waits for the old process to terminate), sleeps 100 ms, starts
the new command, and spawns its reader tasks.  The old command's
exit-typed message, however, is emitted by the exit-wait goroutine of
the *previous* `ReadOutput` call, which is synchronized with the rest of
the system only by the old process's termination: `time.Sleep` creates
no happens-before edge, so the Go scheduler may run that goroutine's
send after the new command's scanners have already sent output.  The
model below has exactly the tasks and enabling conditions the source
establishes for this scenario. -/

/-- The observable messages of the stop-then-start scenario, in the
order they are handed to `sendMessage`. -/
inductive RaceEvent
  | infoStarted
  | oldExit
  | newStdout
deriving Repr, DecidableEq

/-- Joint state of the three tasks: the handler running `handleCommand`
(program counter over stop / start / spawn readers / send info), the old
command's exit-wait goroutine (wait / emit exit message / clear running),
and the new command's stdout scanner (read a line / emit it).  Flags
record the synchronization facts the source establishes: the old process
has terminated (set by `Stop`, which waits for it), the new process has
been started, and the new reader tasks have been spawned. -/
structure RaceState where
  handlerPc : Nat
  oldPc : Nat
  newPc : Nat
  oldProcDead : Bool
  newStarted : Bool
  tasksSpawned : Bool
  events : List RaceEvent
deriving Repr, DecidableEq

/-- Initial state: the handler is at the `pty.Running` check of
`handleCommand` with the old process alive, the old `ReadOutput`'s
exit-wait goroutine is blocked in `cmd.Wait()`, and the new command does
not exist yet. -/
def raceInit : RaceState :=
  { handlerPc := 0, oldPc := 0, newPc := 0,
    oldProcDead := false, newStarted := false, tasksSpawned := false, events := [] }

/-- One scheduler step: run the next enabled action of task `t`
(0 = handler, 1 = old exit-wait goroutine, 2 = new stdout scanner);
`none` when that task has no enabled action.  Handler actions follow
pty/handlers.go lines 181–210 (`Stop` returns only after the old process
is dead; the 100 ms sleep has no effect on other tasks); the old
exit-wait goroutine follows lines 444–466 (its `Wait` can return only
once the old process is dead); the new scanner follows lines 406–422
(it exists only once `ReadOutput` spawned it, and can read a line only
from the started process). -/
def raceStep (s : RaceState) (t : Nat) : Option RaceState :=
  if t = 0 then
    match s.handlerPc with
    | 0 => some { s with handlerPc := 1, oldProcDead := true }
    | 1 => some { s with handlerPc := 2, newStarted := true }
    | 2 => some { s with handlerPc := 3, tasksSpawned := true }
    | 3 => some { s with handlerPc := 4, events := s.events ++ [RaceEvent.infoStarted] }
    | _ => none
  else if t = 1 then
    match s.oldPc with
    | 0 => if s.oldProcDead then some { s with oldPc := 1 } else none
    | 1 => some { s with oldPc := 2, events := s.events ++ [RaceEvent.oldExit] }
    | 2 => some { s with oldPc := 3 }
    | _ => none
  else if t = 2 then
    match s.newPc with
    | 0 => if s.tasksSpawned && s.newStarted then some { s with newPc := 1 } else none
    | 1 => some { s with newPc := 2, events := s.events ++ [RaceEvent.newStdout] }
    | _ => none
  else none

/-- Run a schedule (a list of task picks); `none` if any pick names a
task with no enabled action, so a `some` result is a valid
interleaving. -/
def raceRun : RaceState → List Nat → Option RaceState
  | s, [] => some s
  | s, t :: ts => (raceStep s t).bind (fun s2 => raceRun s2 ts)

/-- A schedule is complete when every task has run to its end. -/
def RaceState.complete (s : RaceState) : Bool :=
  s.handlerPc = 4 && s.oldPc = 3 && s.newPc = 2

/-! ## Concrete sample states (used to instantiate the theorems) -/

/-- A sample wire message. -/
def mW : Message := { type := "pong", data := MsgData.pongData 0 }

/-- An open connection with an empty outbound queue. -/
def wcA : WsConnection := { id := "a", send := [], closed := false, transportClosed := false }

/-- An open connection whose outbound queue is full. -/
def wcFull : WsConnection :=
  { id := "f", send := List.replicate sendQueueCapacity mW,
    closed := false, transportClosed := false }

/-- Another open connection with an empty outbound queue. -/
def wcB : WsConnection := { id := "b", send := [], closed := false, transportClosed := false }

/-- A connection whose closed flag is already set. -/
def wcClosed : WsConnection := { id := "c", send := [], closed := true, transportClosed := true }

/-- A PTY session with a running process. -/
def pRunning : PTY :=
  { id := "s1"
    cmd := some { program := "sleep", args := ["5"], dir := "",
                  processStarted := true, pid := 42 }
    stdin := some true, stdout := some true, stderr := some true,
    running := true, stdinWritten := [] }

/-- A fresh PTY session with no process. -/
def pIdle : PTY :=
  { id := "s2", cmd := none, stdin := none, stdout := none, stderr := none,
    running := false, stdinWritten := [] }

/-- An environment in which spawning succeeds. -/
def envGood : SpawnEnv :=
  { stdinPipeOk := true, stdoutPipeOk := true, stderrPipeOk := true,
    execOk := true, pid := 43 }

/-- An environment in which the executable cannot be launched (for
example, it does not exist). -/
def envNoExec : SpawnEnv :=
  { stdinPipeOk := true, stdoutPipeOk := true, stderrPipeOk := true,
    execOk := false, pid := 0 }

/-- An idle session on an open connection. -/
def sess0 : Session := { pty := pIdle, conn := wcA }

/-- Handler state for the idle session. -/
def hs0 : HandlerState := { pty := some pIdle, conn := wcA }

/-- A registry that has exactly one connection registered. -/
def mgr0 : ManagerState := { connIds := ["a"], sendClosed := [], closeCallbacks := [] }

/-- A command request naming a nonexistent executable. -/
def reqBad : CommandRequest := { command := "nonexistentcommand", args := "", dir := "" }

/-! # Helper lemmas -/

/-- The source tokenizing loop coincides with the spec-style loop whose
separator class is exactly the space character. -/
theorem parseArgsLoop_eq_tokenizeLoop (cs : List Char) :
    ∀ q e cur acc, parseArgsLoop cs q e cur acc =
      tokenizeLoop (fun c => c = ' ') cs q e cur acc := by
  induction cs with
  | nil => intro q e cur acc; rfl
  | cons c rest ih =>
    intro q e cur acc
    simp only [parseArgsLoop, tokenizeLoop, decide_eq_true_eq]
    split_ifs <;> exact ih _ _ _ _

/-- The tokenizer agrees everywhere with the spec-style tokenizer that
splits on unescaped space characters only. -/
theorem parseArgs_eq_tokenizeOn_space (s : String) :
    parseArgs s = tokenizeOn (fun c => c = ' ') s := by
  simp only [parseArgs, tokenizeOn]
  split_ifs with h
  · rfl
  · exact parseArgsLoop_eq_tokenizeLoop _ _ _ _ _

/-- Trimming a string of whitespace characters leaves nothing. -/
theorem trimSpace_all_space {cs : List Char} (h : cs.all isGoSpace) : trimSpace cs = [] := by
  have h1 : cs.dropWhile isGoSpace = [] := by
    rw [List.dropWhile_eq_nil_iff]
    intro x hx
    exact List.all_eq_true.mp h x hx
  simp [trimSpace, h1]

/-- A blank argument string yields zero arguments. -/
theorem parseArgs_blank {s : String} (h : s.toList.all isGoSpace) : parseArgs s = [] := by
  have h1 : trimSpace s.data = [] := trimSpace_all_space h
  simp [parseArgs, h1]

/-- Closing an already-closed connection any number of times never
notifies the registry again. -/
theorem closeIter_closed (c : WsConnection) (h : c.closed = true) :
    ∀ n, closeIter n c = (c, 0) := by
  intro n
  induction n with
  | zero => rfl
  | succ k ih => simp [closeIter, WsConnection.close, h, ih]

/-- Closing an open connection at least once closes the transport, sets
the closed flag, and notifies the registry exactly once, however many
times close is invoked. -/
theorem closeIter_once (c : WsConnection) (h : c.closed = false) {n : Nat} (hn : 1 ≤ n) :
    closeIter n c = ({ c with closed := true, transportClosed := true }, 1) := by
  obtain ⟨k, rfl⟩ : ∃ k, n = k + 1 := ⟨n - 1, by omega⟩
  simp [closeIter, WsConnection.close, h,
    closeIter_closed { c with closed := true, transportClosed := true } rfl]

/-! # Claim theorems -/

/-- C1 counterexample: the tokenizer does not split on general unescaped
whitespace.  On the input a, TAB, b the spec-words tokenizer (split on
unescaped whitespace) yields the two tokens a and b, but `parseArgs`
keeps the tab inside one single token. -/
theorem parseArgs_whitespace_counterexample :
    parseArgs ("a\tb") = ["a\tb"] ∧
    tokenizeOn isGoSpace ("a\tb") = ["a", "b"] ∧
    parseArgs ("a\tb") ≠ tokenizeOn isGoSpace ("a\tb") := by
  decide

/-- C1 (amended): the argument tokenizer splits on unescaped space
characters only (other whitespace characters are ordinary token
characters), honoring double-quote grouping and backslash-escaping of
the next character, after trimming leading and trailing whitespace; an
empty or all-blank string yields zero arguments; in particular the empty
string yields zero arguments, a-space-b yields the two tokens a and b,
and a double-quoted span is one token with the quotes removed. -/
theorem parseArgs_spec :
    (∀ s, parseArgs s = tokenizeOn (fun c => c = ' ') s) ∧
    (∀ s : String, s.toList.all isGoSpace → parseArgs s = []) ∧
    parseArgs ("") = [] ∧
    parseArgs ("a b") = ["a", "b"] ∧
    parseArgs ("\"a b\"") = ["a b"] ∧
    parseArgs ("a \"b c\"") = ["a", "b c"] :=
  ⟨parseArgs_eq_tokenizeOn_space, fun _ h => parseArgs_blank h,
   by decide, by decide, by decide, by decide⟩

/-- Witness for the amended C1 theorem at concrete inputs. -/
theorem parseArgs_spec_witness :
    parseArgs ("  ") = [] ∧ parseArgs ("a b") = ["a", "b"] :=
  ⟨parseArgs_spec.2.1 ("  ") (by decide), parseArgs_spec.2.2.2.1⟩

/-- C2: `Connection.SendMessage` fails with the connection-closed error
whenever the closed flag is set (without blocking, as a total function),
fails with the queue-full error when the connection is open but the
bounded outbound queue is saturated, and otherwise serializes the
message and appends it to the outbound queue. -/
theorem sendMessage_spec (c : WsConnection) (msg : Message) :
    (c.closed = true → c.sendMessage msg = (c, some SendError.connectionClosed)) ∧
    (c.closed = false → sendQueueCapacity ≤ c.send.length →
      c.sendMessage msg = (c, some SendError.queueFull)) ∧
    (c.closed = false → c.send.length < sendQueueCapacity →
      c.sendMessage msg = ({ c with send := c.send ++ [msg] }, none)) := by
  refine ⟨fun h => ?_, fun h hfull => ?_, fun h hroom => ?_⟩
  · simp [WsConnection.sendMessage, h]
  · simp [WsConnection.sendMessage, h, Nat.not_lt.mpr hfull]
  · simp [WsConnection.sendMessage, h, hroom]

/-- Witness for C2: a closed connection, a full open connection, and an
open connection with room. -/
theorem sendMessage_spec_witness :
    wcClosed.sendMessage mW = (wcClosed, some SendError.connectionClosed) ∧
    wcFull.sendMessage mW = (wcFull, some SendError.queueFull) ∧
    wcA.sendMessage mW = ({ wcA with send := [mW] }, none) :=
  ⟨(sendMessage_spec wcClosed mW).1 (by simp [wcClosed]),
   (sendMessage_spec wcFull mW).2.1 (by simp [wcFull]) (by simp [wcFull]),
   (sendMessage_spec wcA mW).2.2 (by simp [wcA]) (by simp [wcA, sendQueueCapacity])⟩

/-- C3: `PTY.Stop` on a session with no running process is a no-op
returning without error; on a session with a running process it always
clears the running flag and returns without error; and a second call
after any call is a no-op returning without error (idempotence). -/
theorem stop_spec (p : PTY) :
    (p.running = false → p.stop = (p, none)) ∧
    (p.running = true → p.cmd ≠ none →
      ((p.stop).1.running = false ∧ (p.stop).2 = none)) ∧
    (p.stop).1.stop = ((p.stop).1, none) := by
  refine ⟨fun h => ?_, fun h hc => ?_, ?_⟩
  · simp [PTY.stop, h]
  · simp [PTY.stop, h, hc]
  · by_cases hr : p.running <;> by_cases hc : p.cmd = none <;>
      simp [PTY.stop, hr, hc]

/-- Witness for C3: a session with a running process and one with none. -/
theorem stop_spec_witness :
    ((pRunning.stop).1.running = false ∧ (pRunning.stop).2 = none) ∧
    pIdle.stop = (pIdle, none) :=
  ⟨(stop_spec pRunning).2.1 (by simp [pRunning]) (by simp [pRunning]),
   (stop_spec pIdle).1 (by simp [pIdle])⟩

/-- C4: `PTY.Start` fails with the already-running error whenever the
running flag is set; with the flag clear it fails with a spawn error
exactly if a pipe cannot be created or the executable cannot be
launched, leaving the running flag false; it sets the running flag to
true exactly when it succeeds; and `handleCommand` for a nonexistent
executable sends an error-typed message naming the spawn failure and
leaves the session's running flag false. -/
theorem start_spec (p : PTY) (env : SpawnEnv) (command : String) (args : List String)
    (dir : String) (s : Session) (req : CommandRequest) :
    (p.running = true → p.start env command args dir = (p, some StartError.alreadyRunning)) ∧
    (p.running = false →
      (env.stdinPipeOk = false ∨ env.stdoutPipeOk = false ∨ env.stderrPipeOk = false ∨
        env.execOk = false) →
      ∃ e, (p.start env command args dir).2 = some e ∧ e.isSpawnError = true ∧
        (p.start env command args dir).1.running = false) ∧
    (p.running = false →
      ((p.start env command args dir).2 = none ↔
        (p.start env command args dir).1.running = true)) ∧
    (s.pty.running = false → s.conn.closed = false →
      s.conn.send.length < sendQueueCapacity →
      env.stdinPipeOk = true → env.stdoutPipeOk = true → env.stderrPipeOk = true →
      env.execOk = false →
      ((handleCommand s env (CommandData.valid req)).1.conn.send =
          s.conn.send ++ [errorWsMessage ("Failed to start command: failed to start command")] ∧
        (handleCommand s env (CommandData.valid req)).1.pty.running = false)) := by
  obtain ⟨si, so, se, ex, pid⟩ := env
  refine ⟨fun h => ?_, fun h hfail => ?_, fun h => ?_, fun h hcl hroom h1 h2 h3 h4 => ?_⟩
  · simp [PTY.start, h]
  · cases si <;> cases so <;> cases se <;> cases ex <;>
      simp_all [PTY.start, StartError.isSpawnError]
  · cases si <;> cases so <;> cases se <;> cases ex <;> simp_all [PTY.start]
  · simp only at h1 h2 h3 h4
    subst h1; subst h2; subst h3; subst h4
    simp [handleCommand, PTY.start, h, sendError, WsConnection.sendMessage, hcl, hroom,
      StartError.message]

/-- Witness for C4: an already-running session rejects a start, and a
command naming a nonexistent executable draws an error message while the
running flag stays false. -/
theorem start_spec_witness :
    pRunning.start envGood ("echo") [] ("") = (pRunning, some StartError.alreadyRunning) ∧
    ((handleCommand sess0 envNoExec (CommandData.valid reqBad)).1.conn.send =
        sess0.conn.send ++
          [errorWsMessage ("Failed to start command: failed to start command")] ∧
      (handleCommand sess0 envNoExec (CommandData.valid reqBad)).1.pty.running = false) :=
  ⟨(start_spec pRunning envGood ("echo") [] ("") sess0 reqBad).1 (by simp [pRunning]),
   (start_spec pIdle envNoExec ("x") [] ("") sess0 reqBad).2.2.2
     (by simp [sess0, pIdle]) (by simp [sess0, wcA])
     (by simp [sess0, wcA, sendQueueCapacity]) (by simp [envNoExec]) (by simp [envNoExec])
     (by simp [envNoExec]) (by simp [envNoExec])⟩

/-- C5: for every process launched by a session (a command exists), the
exit-wait task computes the exit code as 0 when the process terminated
without reporting one and as the wrapped code otherwise, emits exactly
one terminal exit-typed output message carrying that code, and clears
the running flag. -/
theorem exitWait_spec (p : PTY) (w : Option WaitErr) (cmd : PtyCmd) (h : p.cmd = some cmd) :
    (p.exitWait w).1 = { p with running := false } ∧
    (p.exitWait w).2 =
      [outputWsMessage
        { type := "exit"
          data := "Process exited with code " ++ toString (exitCodeOf w)
          code := exitCodeOf w
          pid := if cmd.processStarted then cmd.pid else 0
          status := "finished" }] ∧
    exitCodeOf none = 0 ∧ (∀ c, exitCodeOf (some (WaitErr.exitError c)) = c) ∧
    exitCodeOf (some WaitErr.otherError) = 0 := by
  refine ⟨?_, ?_, rfl, fun c => rfl, rfl⟩ <;> simp [PTY.exitWait, h]

/-- Witness for C5: a running session whose process exits with code 3. -/
theorem exitWait_spec_witness :
    (pRunning.exitWait (some (WaitErr.exitError 3))).1 = { pRunning with running := false } ∧
    (pRunning.exitWait (some (WaitErr.exitError 3))).2 =
      [outputWsMessage
        { type := "exit", data := "Process exited with code 3", code := 3,
          pid := 42, status := "finished" }] := by
  have h := exitWait_spec pRunning (some (WaitErr.exitError 3))
    { program := "sleep", args := ["5"], dir := "", processStarted := true, pid := 42 }
    (by simp [pRunning])
  refine ⟨h.1, ?_⟩
  rw [h.2.1]
  decide

/-- C6: a malformed (non-JSON) text frame makes the handler send an
error-typed message back on the same connection; the connection is not
closed, and the read pump continues with the subsequent frames. -/
theorem malformed_frame_spec (st : HandlerState) (env : SpawnEnv) (now : Int)
    (rest : List FrameEvent) (hopen : st.conn.closed = false)
    (hroom : st.conn.send.length < sendQueueCapacity) :
    (handleMessage st env now textMessage FrameData.malformed).1.conn.send =
        st.conn.send ++ [errorWsMessage ("Invalid message format")] ∧
    (handleMessage st env now textMessage FrameData.malformed).1.conn.closed = false ∧
    readPumpRun env now st (FrameEvent.frame textMessage FrameData.malformed :: rest) =
      readPumpRun env now (handleMessage st env now textMessage FrameData.malformed).1 rest := by
  refine ⟨?_, ?_, rfl⟩ <;>
    simp [handleMessage, sendError, WsConnection.sendMessage, hopen, hroom, textMessage]

/-- Witness for C6 on a concrete open connection. -/
theorem malformed_frame_spec_witness :
    (handleMessage hs0 envGood 0 textMessage FrameData.malformed).1.conn.send =
        hs0.conn.send ++ [errorWsMessage ("Invalid message format")] ∧
    (handleMessage hs0 envGood 0 textMessage FrameData.malformed).1.conn.closed = false :=
  ⟨(malformed_frame_spec hs0 envGood 0 [] (by simp [hs0, wcA])
      (by simp [hs0, wcA, sendQueueCapacity])).1,
   (malformed_frame_spec hs0 envGood 0 [] (by simp [hs0, wcA])
      (by simp [hs0, wcA, sendQueueCapacity])).2.1⟩

/-- C7: broadcasting to live connections of which exactly one has a full
outbound queue enqueues the message on every other connection, skips the
full one without enqueuing, and closes exactly that one; the broadcaster
is a total function of the registry state, so it never blocks. -/
theorem broadcast_spec (conns : List WsConnection) (msg : Message) (j : Nat)
    (hj : j < conns.length)
    (hlive : ∀ i : Fin conns.length, (conns.get i).closed = false)
    (hfull : sendQueueCapacity ≤ (conns.get ⟨j, hj⟩).send.length)
    (hothers : ∀ i : Fin conns.length, (i : Nat) ≠ j →
      (conns.get i).send.length < sendQueueCapacity) :
    (broadcastToPath conns msg).length = conns.length ∧
    ∀ i : Fin conns.length,
      (broadcastToPath conns msg).get ⟨i.val, by simp [broadcastToPath]⟩ =
        (if (i : Nat) = j
         then { conns.get i with closed := true, transportClosed := true }
         else { conns.get i with send := (conns.get i).send ++ [msg] }) := by
  constructor
  · simp [broadcastToPath]
  · intro i
    have hmap : (broadcastToPath conns msg).get
        ⟨i.val, by simp [broadcastToPath]⟩ = broadcastStep msg (conns.get i) := by
      simp [broadcastToPath]
    rw [hmap]
    rcases i with ⟨iv, hilt⟩
    by_cases hij : iv = j
    · subst hij
      have hfull2 : ¬(conns[iv].send.length < sendQueueCapacity) := Nat.not_lt.mpr hfull
      have hlive2 : conns[iv].closed = false := hlive ⟨iv, hilt⟩
      simp [broadcastStep, WsConnection.close, hfull2, hlive2]
    · have hroom2 : conns[iv].send.length < sendQueueCapacity := hothers ⟨iv, hilt⟩ hij
      simp [broadcastStep, hroom2, hij]

set_option maxRecDepth 8192 in
/-- Witness for C7: three live connections, the middle one full; the
full one is closed and skipped, the first one receives the message. -/
theorem broadcast_spec_witness :
    ((broadcastToPath [wcA, wcFull, wcB] mW).get ⟨1, by simp [broadcastToPath]⟩ =
      { wcFull with closed := true, transportClosed := true }) ∧
    ((broadcastToPath [wcA, wcFull, wcB] mW).get ⟨0, by simp [broadcastToPath]⟩ =
      { wcA with send := wcA.send ++ [mW] }) := by
  have h := broadcast_spec [wcA, wcFull, wcB] mW 1 (by simp)
    (by decide) (by decide) (by decide)
  constructor
  · simpa using h.2 ⟨1, by simp⟩
  · simpa using h.2 ⟨0, by simp⟩

/-- C8: the code does not guarantee that the previous command's
exit-typed message is observed before the new command's output.  The
schedule below is a valid, complete interleaving of the handler task,
the old command's exit-wait task, and the new command's stdout scanner
in which the new command's stdout message is enqueued before the old
command's exit message, violating the claimed ordering; the only
ordering the source enforces is the old process's termination before the
new start (inside the handler task), plus an unsynchronized 100 ms
sleep. -/
theorem stopStart_ordering_violation :
    (raceRun raceInit [0, 0, 0, 0, 2, 2, 1, 1, 1]).map RaceState.events =
        some [RaceEvent.infoStarted, RaceEvent.newStdout, RaceEvent.oldExit] ∧
    (raceRun raceInit [0, 0, 0, 0, 2, 2, 1, 1, 1]).map RaceState.complete = some true := by
  decide

/-- C9: however many times close is invoked on an open connection, the
transport is closed, the closed flag is set, the registry is notified
exactly once; processing those notifications removes the connection,
closes its outbound queue exactly once and invokes the handler's close
callback exactly once, and a further unregister is a no-op. -/
theorem close_registry_spec (c : WsConnection) (m : ManagerState) (n : Nat)
    (hn : 1 ≤ n) (hc : c.closed = false) (hmem : c.id ∈ m.connIds)
    (hcount : m.connIds.count c.id = 1) :
    (closeIter n c).1.closed = true ∧
    (closeIter n c).1.transportClosed = true ∧
    (closeIter n c).2 = 1 ∧
    unregisterIter (closeIter n c).2 m c.id =
      { connIds := m.connIds.erase c.id
        sendClosed := m.sendClosed ++ [c.id]
        closeCallbacks := m.closeCallbacks ++ [c.id] } ∧
    (unregisterIter (closeIter n c).2 m c.id).handleUnregister c.id =
      unregisterIter (closeIter n c).2 m c.id := by
  rw [closeIter_once c hc hn]
  have h0 : (m.connIds.erase c.id).count c.id = 0 := by
    rw [List.count_erase_self, hcount]
  have herase : c.id ∉ m.connIds.erase c.id := List.count_eq_zero.mp h0
  refine ⟨rfl, rfl, rfl, ?_, ?_⟩
  · simp [unregisterIter, ManagerState.handleUnregister, hmem]
  · simp [unregisterIter, ManagerState.handleUnregister, hmem, herase]

/-- Witness for C9: three close calls on a registered open connection
notify the registry once and run the close effects once. -/
theorem close_registry_spec_witness :
    (closeIter 3 wcA).1.closed = true ∧
    (closeIter 3 wcA).2 = 1 ∧
    unregisterIter (closeIter 3 wcA).2 mgr0 wcA.id =
      { connIds := [], sendClosed := ["a"], closeCallbacks := ["a"] } := by
  have h := close_registry_spec wcA mgr0 3 (by omega) (by simp [wcA])
    (by simp [mgr0, wcA]) (by simp [mgr0, wcA])
  refine ⟨h.1, h.2.2.1, ?_⟩
  rw [h.2.2.2.1]
  decide

/-- C10: a frame whose transport message type is not a text frame is
ignored: the handler returns success (a nil error), sends nothing, and
changes no connection or session state. -/
theorem nontext_frame_spec (st : HandlerState) (env : SpawnEnv) (now : Int)
    (messageType : Int) (frame : FrameData) (h : messageType ≠ textMessage) :
    handleMessage st env now messageType frame = (st, none) := by
  simp [handleMessage, h]

/-- Witness for C10: a binary frame is silently ignored. -/
theorem nontext_frame_spec_witness :
    handleMessage hs0 envGood 0 binaryMessage FrameData.malformed = (hs0, none) :=
  nontext_frame_spec hs0 envGood 0 binaryMessage FrameData.malformed (by decide)

end EtaCore
